import Mathlib

/-!
Verification of the PhoneHub customer-support bot against its
natural-language specification.

The repository's logic lives in `phone_support_bot.py` (intent router,
five tool functions over static tables) and `tools/support_tools.py`
(class-based mock databases: inventory, repair prices, appointments).
Strings are embedded as `List Char`; Python `str.lower`, `str.capitalize`
and `str.title` are modelled on their ASCII behaviour, which covers every
keyword and table key in the source.  Dollar amounts that are Python
floats in `support_tools.py` are represented exactly as integer cents.
-/

/-- Python strings, embedded as lists of characters. -/
abbrev Str := List Char

/-- Coerce a Lean string literal into the embedding. -/
def S (s : String) : Str := s.data

/-- Prefix test on character lists (`needle` is a prefix of `hay`). -/
def isPre : Str → Str → Bool
  | [], _ => true
  | _ :: _, [] => false
  | a :: as, b :: bs => a == b && isPre as bs

/-- Python's `needle in hay` substring test. -/
def containsSub (hay nee : Str) : Bool :=
  match hay with
  | [] => isPre nee []
  | _ :: t => isPre nee hay || containsSub t nee

/-- ASCII model of Python `str.lower` on a single character. -/
def lowerChar (c : Char) : Char :=
  if 65 ≤ c.toNat && c.toNat ≤ 90 then Char.ofNat (c.toNat + 32) else c

/-- ASCII model of Python `str.lower`. -/
def lowerS (s : Str) : Str := s.map lowerChar

/-! ## The intent router (`phone_support_bot.py`, `router`) -/

def PRODUCT_KWS : List Str := [S "phone", S "model", S "spec", S "price", S "buy"]

def REPAIR_KWS : List Str := [S "repair", S "fix", S "broken", S "damage"]

def STATUS_KWS : List Str := [S "status", S "track", S "check", S "ticket"]

def APPT_KWS : List Str := [S "appointment", S "schedule", S "book", S "meet"]

def TROUBLE_KWS : List Str := [S "help", S "trouble", S "issue", S "problem"]

def WARRANTY_KWS : List Str := [S "warranty", S "guarantee", S "cover"]

def CONTACT_KWS : List Str := [S "contact", S "store", S "location", S "hours"]

def HUMAN_KWS : List Str := [S "human", S "agent", S "speak to", S "representative"]

/-- `any(word in query for word in kws)`. -/
def kwAny (q : Str) (kws : List Str) : Bool := kws.any (fun w => containsSub q w)

/-- The router over the latest user message text: lower-case the text and
test the eight keyword sets in priority order, first match winning,
defaulting to `general_chat` (`phone_support_bot.py` lines 244-271). -/
def router (msg : Str) : Str :=
  let q := lowerS msg
  if kwAny q PRODUCT_KWS then S "product_info"
  else if kwAny q REPAIR_KWS then S "repair_info"
  else if kwAny q STATUS_KWS then S "status_check"
  else if kwAny q APPT_KWS then S "appointment"
  else if kwAny q TROUBLE_KWS then S "troubleshooting"
  else if kwAny q WARRANTY_KWS then S "warranty_check"
  else if kwAny q CONTACT_KWS then S "contact_info"
  else if kwAny q HUMAN_KWS then S "human_escalation"
  else S "general_chat"

/-- The nine category labels the router can produce. -/
def CATEGORY_LABELS : List Str :=
  [S "product_info", S "repair_info", S "status_check", S "appointment",
   S "troubleshooting", S "warranty_check", S "contact_info",
   S "human_escalation", S "general_chat"]

/-- Modelled from the spec: an explicit ordered list of
(category, keyword set) rules, evaluated in fixed priority order. -/
def ROUTER_RULES : List (Str × List Str) :=
  [(S "product_info", PRODUCT_KWS), (S "repair_info", REPAIR_KWS),
   (S "status_check", STATUS_KWS), (S "appointment", APPT_KWS),
   (S "troubleshooting", TROUBLE_KWS), (S "warranty_check", WARRANTY_KWS),
   (S "contact_info", CONTACT_KWS), (S "human_escalation", HUMAN_KWS)]

/-- Modelled from the spec: route by the first rule whose keyword set
matches, defaulting to `general_chat`. -/
def routeByRules (m : Str) : Str :=
  match ROUTER_RULES.find? (fun r => kwAny (lowerS m) r.2) with
  | some r => r.1
  | none => S "general_chat"

/-! ## Association-list lookup (Python dict membership / indexing) -/

/-- Lookup in an association list, mirroring Python dict key lookup. -/
def alookup {α : Type} (k : Str) : List (Str × α) → Option α
  | [] => none
  | (k2, v) :: rest => if k == k2 then some v else alookup k rest

/-! ## Repair info (`phone_support_bot.py`, `get_repair_info`) -/

/-- The `repair_prices` table of `get_repair_info`, in source (dict
insertion) order. -/
def repair_prices : List (Str × List (Str × Str)) :=
  [(S "screen", [(S "iPhone", S "$199"), (S "Samsung", S "$179"), (S "Other", S "$159")]),
   (S "battery", [(S "iPhone", S "$89"), (S "Samsung", S "$79"), (S "Other", S "$69")]),
   (S "camera", [(S "iPhone", S "$149"), (S "Samsung", S "$129"), (S "Other", S "$119")]),
   (S "water_damage", [(S "iPhone", S "$299"), (S "Samsung", S "$279"), (S "Other", S "$259")])]

/-- The `for key in repair_prices: if key in issue_lower: break` scan:
first table key occurring in the lower-cased issue text. -/
def priceKeyFor (issue : Str) : Option Str :=
  (repair_prices.map Prod.fst).find? (fun k => containsSub (lowerS issue) k)

/-- Brand bucket: `"iPhone" if "iphone" in phone_type.lower() else
"Samsung" if "samsung" in phone_type.lower() else "Other"`. -/
def repairBrand (phone_type : Str) : Str :=
  if containsSub (lowerS phone_type) (S "iphone") then S "iPhone"
  else if containsSub (lowerS phone_type) (S "samsung") then S "Samsung"
  else S "Other"

/-- `repair_prices[price_key][brand]`.  The `getD` defaults are
unreachable: every issue key is in the table and every row carries all
three brand keys (proved in the C9 theorem below). -/
def priceLookup (k brand : Str) : Str :=
  (alookup brand ((alookup k repair_prices).getD [])).getD []

/-- `"1-2 days" if urgency == "urgent" else "3-5 business days"`. -/
def repairTurnaround (urgency : Str) : Str :=
  if urgency == S "urgent" then S "1-2 days" else S "3-5 business days"

/-- `get_repair_info` (lines 132-160): price the first matching issue
keyword for the resolved brand bucket, or fall back to the visit-store
message. -/
def get_repair_info (phone_type issue urgency : Str) : Str :=
  match priceKeyFor issue with
  | some k =>
      S "\n        Repair Estimate:\n        Phone: " ++ phone_type ++
      (S "\n        Issue: " ++ (issue ++
      (S "\n        Estimated Cost: " ++ (priceLookup k (repairBrand phone_type) ++
      (S "\n        Turnaround Time: " ++ (repairTurnaround urgency ++
      S "\n        Warranty: 90 days on all repairs\n        "))))))
  | none =>
      S "We can repair " ++ (phone_type ++ (S " with " ++ (issue ++
      S ". Please visit our store for exact pricing.")))

/-! ## Status check (`phone_support_bot.py`, `check_repair_status`) -/

/-- One mock repair job.  `TICKET-001` has no `completed_date` key and
`TICKET-002` has no `estimated_completion` key, hence the `Option`s. -/
structure RepairJob where
  status : Str
  estimated_completion : Option Str
  completed_date : Option Str
  phone : Str
  issue : Str
deriving DecidableEq

/-- The seeded `REPAIR_JOBS` store. -/
def REPAIR_JOBS : List (Str × RepairJob) :=
  [(S "TICKET-001", ⟨S "In Progress", some (S "2024-01-15"), none, S "iPhone 14", S "Screen Replacement"⟩),
   (S "TICKET-002", ⟨S "Completed", none, some (S "2024-01-10"), S "Samsung S22", S "Battery Replacement"⟩)]

/-- Python `str(...)` of a possibly-missing value (`dict.get` returns
`None`, which an f-string renders as `"None"`). -/
def optStr : Option Str → Str
  | none => S "None"
  | some s => s

/-- The fixed prompt for a missing or unknown ticket id. -/
def ticketNotFoundMsg : Str :=
  S "Please provide a valid ticket number. You can find it on your repair receipt."

/-- `check_repair_status` (lines 163-171).  `ticket_number and
ticket_number in REPAIR_JOBS` treats both `None` and the empty string as
falsy. -/
def check_repair_status (ticket_number : Option Str) : Str :=
  match ticket_number with
  | some t =>
      if t != [] then
        match alookup t REPAIR_JOBS with
        | some job =>
            if job.status == S "Completed" then
              S "Repair " ++ (t ++ (S " was completed on " ++ (optStr job.completed_date ++
              (S ". Your " ++ (job.phone ++ (S " with " ++ (job.issue ++
              S " is ready for pickup!")))))))
            else
              S "Repair " ++ (t ++ (S " for " ++ (job.phone ++ (S " (" ++ (job.issue ++
              (S ") is " ++ (job.status ++ (S ". Estimated completion: " ++
              (optStr job.estimated_completion ++ S ".")))))))))
        | none => ticketNotFoundMsg
      else ticketNotFoundMsg
  | none => ticketNotFoundMsg

/-! ## Appointment booking (`phone_support_bot.py`, `book_appointment`) -/

/-- A wall-clock reading of `datetime.now()`.  `strftime('%Y%m%d%H%M%S')`
drops the microsecond field. -/
structure NowTime where
  year : Nat
  month : Nat
  day : Nat
  hour : Nat
  minute : Nat
  second : Nat
  microsecond : Nat
deriving DecidableEq

/-- Decimal digit character. -/
def digitChar (n : Nat) : Char := Char.ofNat (48 + n % 10)

/-- Zero-padded fixed-width decimal rendering (`strftime` field). -/
def padNat : Nat → Nat → Str
  | 0, _ => []
  | w + 1, n => padNat w (n / 10) ++ [digitChar n]

/-- `f"APT-{datetime.now().strftime('%Y%m%d%H%M%S')}"`: the appointment id
has one-second resolution. -/
def aptIdStr (t : NowTime) : Str :=
  S "APT-" ++ padNat 4 t.year ++ padNat 2 t.month ++ padNat 2 t.day ++
  padNat 2 t.hour ++ padNat 2 t.minute ++ padNat 2 t.second

/-- ASCII digit test. -/
def isDig (c : Char) : Bool := 48 ≤ c.toNat && c.toNat ≤ 57

/-- Numeric value of an ASCII digit. -/
def dv (c : Char) : Nat := c.toNat - 48

/-- Gregorian leap-year rule, as in Python's `datetime`. -/
def isLeap (y : Nat) : Bool := y % 4 == 0 && (y % 100 != 0 || y % 400 == 0)

/-- Days in a month, as validated by the `datetime` constructor. -/
def daysInMonth (y m : Nat) : Nat :=
  if m == 2 then (if isLeap y then 29 else 28)
  else if m == 4 || m == 6 || m == 9 || m == 11 then 30
  else 31

/-- CPython `strptime` month directive `%m`, whose pattern is
`1[0-2]|0[1-9]|[1-9]`: two digits when they form 01-12, otherwise a single
non-zero digit.  When the two-character alternatives match, the one-digit
alternative cannot lead to an overall match (the next pattern character is
the literal dash but the input continues with a digit), so committing to
the longest alternative is equivalent to the regex backtracking. -/
def parseMonth : Str → Option (Nat × Str)
  | a :: b :: rest =>
      if a == '1' && (b == '0' || b == '1' || b == '2') then some (10 + dv b, rest)
      else if a == '0' && (isDig b && b != '0') then some (dv b, rest)
      else if isDig a && a != '0' then some (dv a, b :: rest)
      else none
  | [a] => if isDig a && a != '0' then some (dv a, []) else none
  | [] => none

/-- CPython `strptime` day directive `%d` (`3[01]|[12]\d|0[1-9]|[1-9]`)
when it must consume the whole remaining input: a one-digit match that
left a trailing character would fail `strptime`'s unconverted-data check,
so only the exact-length cases survive. -/
def parseDayEnd : Str → Option Nat
  | [a, b] =>
      if a == '3' && (b == '0' || b == '1') then some (30 + dv b)
      else if (a == '1' || a == '2') && isDig b then some (10 * dv a + dv b)
      else if a == '0' && (isDig b && b != '0') then some (dv b)
      else none
  | [a] => if isDig a && a != '0' then some (dv a) else none
  | _ => none

/-- `datetime.strptime(s, "%Y-%m-%d")`: four year digits, dash, month,
dash, day consuming the rest, then calendar validation by the `datetime`
constructor (year at least 1, day within the month, leap years). -/
def parseYmd (s : Str) : Option (Nat × Nat × Nat) :=
  match s with
  | y1 :: y2 :: y3 :: y4 :: sep1 :: rest =>
      if isDig y1 && isDig y2 && isDig y3 && isDig y4 && sep1 == '-' then
        match parseMonth rest with
        | some (m, rest2) =>
            match rest2 with
            | sep2 :: rest3 =>
                if sep2 == '-' then
                  match parseDayEnd rest3 with
                  | some d =>
                      let y := 1000 * dv y1 + 100 * dv y2 + 10 * dv y3 + dv y4
                      if 1 ≤ y && d ≤ daysInMonth y m then some (y, m, d) else none
                  | none => none
                else none
            | [] => none
        | none => none
      else none
  | _ => none

/-- Modelled from the claim's words: a string in the exact `YYYY-MM-DD`
format denoting a real calendar date — exactly ten characters, zero-padded
four-digit year, two-digit month and two-digit day separated by dashes,
with the month 01-12 and the day within that month. -/
def exactYMD (s : Str) : Bool :=
  match s with
  | [y1, y2, y3, y4, h1, m1, m2, h2, d1, d2] =>
      isDig y1 && isDig y2 && isDig y3 && isDig y4 && h1 == '-' &&
      isDig m1 && isDig m2 && h2 == '-' && isDig d1 && isDig d2 &&
      (let y := 1000 * dv y1 + 100 * dv y2 + 10 * dv y3 + dv y4
       let m := 10 * dv m1 + dv m2
       let d := 10 * dv d1 + dv d2
       1 ≤ y && 1 ≤ m && m ≤ 12 && 1 ≤ d && d ≤ daysInMonth y m)
  | _ => false

/-- The four fixed bookable slots. -/
def AVAILABLE_TIMES : List Str :=
  [S "9:00 AM", S "11:00 AM", S "2:00 PM", S "4:00 PM"]

/-- Rejection text for an unparseable date. -/
def invalidDateMsg : Str := S "Invalid date format. Please use YYYY-MM-DD."

/-- Rejection text for a time outside the four slots. -/
def availableTimesMsg : Str :=
  S "Available times: 9:00 AM, 11:00 AM, 2:00 PM, 4:00 PM"

/-- The success confirmation f-string of `book_appointment`. -/
def bookingConfirmation (now : NowTime) (customer_name phone_type issue preferred_date preferred_time contact : Str) : Str :=
  S "\n    ✅ Appointment Booked Successfully!\n    Appointment ID: " ++
  (aptIdStr now ++ (S "\n    Customer: " ++ (customer_name ++
  (S "\n    Phone: " ++ (phone_type ++ (S "\n    Issue: " ++ (issue ++
  (S "\n    Date: " ++ (preferred_date ++ (S "\n    Time: " ++ (preferred_time ++
  (S "\n    Contact: " ++ (contact ++
  S "\n\n    Please bring your phone and any accessories. Arrive 10 minutes early.\n    ")))))))))))))

/-- `book_appointment` (lines 174-199): date validation, slot check, then
the timestamp-id confirmation.  `datetime.now()` is passed explicitly. -/
def book_appointment (now : NowTime) (customer_name phone_type issue preferred_date preferred_time contact : Str) : Str :=
  match parseYmd preferred_date with
  | none => invalidDateMsg
  | some _ =>
      if AVAILABLE_TIMES.contains preferred_time then
        bookingConfirmation now customer_name phone_type issue preferred_date preferred_time contact
      else availableTimesMsg

/-! ## Phone catalogue (`phone_support_bot.py`, `get_phone_info`) -/

/-- The `specs` sub-dictionary of a catalogue entry. -/
structure PhoneSpecs where
  display : Str
  camera : Str
  battery : Str
deriving DecidableEq

/-- One `PHONE_INVENTORY` entry. -/
structure PhoneEntry where
  price : Str
  storage : List Str
  colors : List Str
  specs : PhoneSpecs
deriving DecidableEq

/-- The seeded `PHONE_INVENTORY` catalogue. -/
def PHONE_INVENTORY : List (Str × PhoneEntry) :=
  [(S "iPhone 15",
    ⟨S "$799", [S "128GB", S "256GB", S "512GB"],
     [S "Black", S "Blue", S "Green", S "Yellow", S "Pink"],
     ⟨S "6.1-inch Super Retina XDR", S "48MP Main + 12MP Ultra Wide",
      S "Up to 20 hours video playback"⟩⟩),
   (S "Samsung Galaxy S23",
    ⟨S "$799", [S "128GB", S "256GB"],
     [S "Phantom Black", S "Cream", S "Green", S "Lavender"],
     ⟨S "6.1-inch Dynamic AMOLED 2X",
      S "50MP Wide + 12MP Ultra Wide + 10MP Telephoto", S "3900mAh"⟩⟩)]

/-- `", ".join(...)`. -/
def joinComma : List Str → Str
  | [] => []
  | [x] => x
  | x :: xs => x ++ (S ", " ++ joinComma xs)

/-- The formatted spec sheet of the model branch of `get_phone_info`. -/
def phoneSheet (m : Str) (p : PhoneEntry) : Str :=
  S "\n        " ++ (m ++ (S " Information:\n        Price: " ++ (p.price ++
  (S "\n        Available Storage: " ++ (joinComma p.storage ++
  (S "\n        Colors: " ++ (joinComma p.colors ++
  (S "\n        Specifications:\n        - Display: " ++ (p.specs.display ++
  (S "\n        - Camera: " ++ (p.specs.camera ++
  (S "\n        - Battery: " ++ (p.specs.battery ++ S "\n        ")))))))))))))

/-- The `elif brand` / `else` branches of `get_phone_info`. -/
def brandBranch (brand : Option Str) : Str :=
  match brand with
  | some b =>
      if b != [] then
        let matching := (PHONE_INVENTORY.map Prod.fst).filter
          (fun m => containsSub (lowerS m) (lowerS b))
        if matching != [] then
          S "We have these " ++ (b ++ (S " models: " ++ (joinComma matching ++
          S ". Ask about any specific model!")))
        else S "Sorry, we don\x27t have " ++ (b ++ S " models in stock currently.")
      else S "Available phones: " ++ joinComma (PHONE_INVENTORY.map Prod.fst)
  | none => S "Available phones: " ++ joinComma (PHONE_INVENTORY.map Prod.fst)

/-- `get_phone_info` (lines 108-129): exact-model spec sheet, else the
brand listing, else all models.  `model and model in PHONE_INVENTORY`
treats `None` and the empty string as falsy. -/
def get_phone_info (brand model feature : Option Str) : Str :=
  match model with
  | some m =>
      if m != [] then
        match alookup m PHONE_INVENTORY with
        | some phone => phoneSheet m phone
        | none => brandBranch brand
      else brandBranch brand
  | none => brandBranch brand

/-! ## RepairServices (`tools/support_tools.py`) -/

/-- A value of the heterogeneous per-issue dictionaries in
`RepairServices.repair_prices`: a dollar amount (a Python float,
represented exactly in integer cents) or the `"time"` string. -/
inductive PVal where
  | price (cents : Nat)
  | note (s : Str)
deriving DecidableEq

/-- `RepairServices.repair_prices` (lines 90-126), in source order; each
row mixes four brand prices with a `"time"` entry. -/
def tools_repair_prices : List (Str × List (Str × PVal)) :=
  [(S "screen_replacement",
    [(S "iPhone", .price 12999), (S "Samsung", .price 11999), (S "Google", .price 10999),
     (S "Other", .price 13999), (S "time", .note (S "1-2 hours"))]),
   (S "battery_replacement",
    [(S "iPhone", .price 8999), (S "Samsung", .price 7999), (S "Google", .price 6999),
     (S "Other", .price 9999), (S "time", .note (S "45-60 minutes"))]),
   (S "camera_repair",
    [(S "iPhone", .price 14999), (S "Samsung", .price 13999), (S "Google", .price 12999),
     (S "Other", .price 15999), (S "time", .note (S "1-3 hours"))]),
   (S "water_damage",
    [(S "iPhone", .price 19999), (S "Samsung", .price 18999), (S "Google", .price 17999),
     (S "Other", .price 21999), (S "time", .note (S "2-4 hours"))]),
   (S "charging_port",
    [(S "iPhone", .price 7999), (S "Samsung", .price 6999), (S "Google", .price 5999),
     (S "Other", .price 8999), (S "time", .note (S "30-45 minutes"))])]

/-- ASCII model of Python `str.capitalize`: first character upper-cased,
the rest lower-cased. -/
def capChar (c : Char) : Char :=
  if 97 ≤ c.toNat && c.toNat ≤ 122 then Char.ofNat (c.toNat - 32) else c

/-- ASCII model of Python `str.capitalize`. -/
def capitalizeS : Str → Str
  | [] => []
  | c :: cs => capChar c :: cs.map lowerChar

/-- ASCII letter test. -/
def isAlpha (c : Char) : Bool :=
  (65 ≤ c.toNat && c.toNat ≤ 90) || (97 ≤ c.toNat && c.toNat ≤ 122)

/-- Worker for `titleS`; the flag records whether the previous character
was a letter. -/
def titleGo : Bool → Str → Str
  | _, [] => []
  | prevAlpha, c :: t =>
      (if isAlpha c then (if prevAlpha then lowerChar c else capChar c) else c) ::
      titleGo (isAlpha c) t

/-- ASCII model of Python `str.title`: a letter not preceded by a letter
is upper-cased, every other letter lower-cased. -/
def titleS (s : Str) : Str := titleGo false s

/-- `issue.replace("_", " ")`. -/
def replUnderscore (s : Str) : Str :=
  s.map (fun c => if c == '_' then ' ' else c)

/-- The structured success value of `estimate_repair_cost`. -/
structure Estimate where
  issue : Str
  brand : Str
  estimated_cost : PVal
  estimated_time : Option PVal
deriving DecidableEq

/-- The returned dictionary of `estimate_repair_cost`: an error record or
a quote. -/
inductive EstimateOut where
  | err (msg : Str)
  | ok (e : Estimate)
deriving DecidableEq

/-- `RepairServices.estimate_repair_cost` (lines 134-153): unknown issues
produce the error record; otherwise the brand is `capitalize()`d and kept
only if it is one of `Iphone`, `Samsung`, `Google`, and the cost is
`price_info.get(brand, price_info["Other"])`.  The final `getD` default is
unreachable because every row has an `"Other"` key (C9 theorem below). -/
def estimate_repair_cost (phone_brand issue : Str) : EstimateOut :=
  match alookup issue tools_repair_prices with
  | none =>
      .err (S "Unknown issue \x27" ++ (issue ++ (S "\x27. Available issues: " ++
        joinComma (tools_repair_prices.map Prod.fst))))
  | some price_info =>
      let cap := capitalizeS phone_brand
      let brand := if cap == S "Iphone" || cap == S "Samsung" || cap == S "Google"
        then cap else S "Other"
      .ok ⟨titleS (replUnderscore issue), brand,
        (alookup brand price_info).getD ((alookup (S "Other") price_info).getD (.price 0)),
        alookup (S "time") price_info⟩

/-! ## AppointmentSystem (`tools/support_tools.py`) -/

/-- One stored appointment record. -/
structure ApptRecord where
  id : Nat
  customer_name : Str
  service_type : Str
  phone_model : Str
  date : Str
  status : Str
  estimated_duration : Str
  confirmation_code : Str
deriving DecidableEq

/-- The mutable state of an `AppointmentSystem` instance: the appointment
store and the id counter (`next_id`, initialised to 1). -/
structure ApptState where
  appointments : List (Nat × ApptRecord)
  next_id : Nat
deriving DecidableEq

/-- The freshly constructed `AppointmentSystem()`. -/
def ApptState.init : ApptState := ⟨[], 1⟩

/-- One booking request (the arguments of one call). -/
structure BookReq where
  customer_name : Str
  service_type : Str
  preferred_date : Str
  phone_model : Str
deriving DecidableEq

/-- `f"REP{appointment_id:04d}"`. -/
def confirmationCode (i : Nat) : Str := S "REP" ++ padNat 4 i

/-- `AppointmentSystem.book_appointment` (lines 175-199): take the current
`next_id`, increment the counter, store the record, return the id with the
updated state. -/
def AppointmentSystem.book_appointment (st : ApptState) (r : BookReq) : Nat × ApptState :=
  let i := st.next_id
  let record : ApptRecord :=
    ⟨i, r.customer_name, r.service_type, r.phone_model, r.preferred_date,
     S "Confirmed", S "1 hour", confirmationCode i⟩
  (i, ⟨st.appointments ++ [(i, record)], i + 1⟩)

/-- The ids returned by a sequence of booking calls against one system
instance, in call order. -/
def runBookings (st : ApptState) : List BookReq → List Nat
  | [] => []
  | r :: rs =>
      let next := AppointmentSystem.book_appointment st r
      next.1 :: runBookings next.2 rs

/-! ## Substring occurrence lemmas -/

theorem isPre_iff (n h : Str) : isPre n h = true ↔ ∃ q, h = n ++ q := by
  induction n generalizing h with
  | nil => simp [isPre]
  | cons a as ih =>
    cases h with
    | nil => simp [isPre]
    | cons b bs =>
      simp only [isPre, Bool.and_eq_true, beq_iff_eq, ih, List.cons_append,
        List.cons.injEq]
      constructor
      · rintro ⟨rfl, q, rfl⟩; exact ⟨q, rfl, rfl⟩
      · rintro ⟨q, rfl, rfl⟩; exact ⟨rfl, q, rfl⟩

theorem containsSub_iff (h n : Str) :
    containsSub h n = true ↔ ∃ p q, h = p ++ (n ++ q) := by
  induction h with
  | nil =>
    simp only [containsSub, isPre_iff]
    constructor
    · rintro ⟨q, hq⟩
      exact ⟨[], q, hq⟩
    · rintro ⟨p, q, hpq⟩
      rcases List.append_eq_nil.mp hpq.symm with ⟨-, h2⟩
      rcases List.append_eq_nil.mp h2 with ⟨rfl, rfl⟩
      exact ⟨[], by simp⟩
  | cons c t ih =>
    simp only [containsSub, Bool.or_eq_true, isPre_iff, ih]
    constructor
    · rintro (⟨q, hq⟩ | ⟨p, q, rfl⟩)
      · exact ⟨[], q, by simpa using hq⟩
      · exact ⟨c :: p, q, rfl⟩
    · rintro ⟨p, q, hpq⟩
      cases p with
      | nil => exact Or.inl ⟨q, by simpa using hpq⟩
      | cons x xs =>
        rcases List.cons.injEq .. ▸ hpq with ⟨-, h2⟩
        exact Or.inr ⟨xs, q, h2⟩

/-- A segment of a concatenation occurs as a substring. -/
theorem subAt (p n q : Str) : containsSub (p ++ (n ++ q)) n = true :=
  (containsSub_iff _ _).mpr ⟨p, q, rfl⟩

/-- Occurrence at the head of a concatenation. -/
theorem subHead (n q : Str) : containsSub (n ++ q) n = true := subAt [] n q

/-- Occurrence is preserved by prepending. -/
theorem subIn (a b n : Str) (h : containsSub b n = true) :
    containsSub (a ++ b) n = true := by
  rcases (containsSub_iff _ _).mp h with ⟨p, q, rfl⟩
  exact (containsSub_iff _ _).mpr ⟨a ++ p, q, by simp⟩

/-- Substring occurrence is transitive. -/
theorem subTrans (a b c : Str) (h1 : containsSub a b = true)
    (h2 : containsSub b c = true) : containsSub a c = true := by
  rcases (containsSub_iff _ _).mp h1 with ⟨p, q, rfl⟩
  rcases (containsSub_iff _ _).mp h2 with ⟨p2, q2, rfl⟩
  exact (containsSub_iff _ _).mpr ⟨p ++ p2, q2 ++ q, by simp⟩

/-- A successful `find?` out of a successful `any`, with the found element
satisfying the predicate. -/
theorem find?_of_any {p : Str → Bool} (l : List Str) (h : l.any p = true) :
    ∃ k, l.find? p = some k ∧ p k = true := by
  induction l with
  | nil => simp at h
  | cons a as ih =>
    by_cases ha : p a = true
    · exact ⟨a, by simp [List.find?, ha], ha⟩
    · rw [List.any_cons, Bool.or_eq_true] at h
      rcases h with h | h
      · exact absurd h ha
      · rcases ih h with ⟨k, hk, hp⟩
        exact ⟨k, by simp [List.find?, ha, hk], hp⟩

/-- Every element of a `", ".join` occurs in the joined string. -/
theorem mem_joinComma (l : List Str) (x : Str) (h : x ∈ l) :
    containsSub (joinComma l) x = true := by
  induction l with
  | nil => simp at h
  | cons a as ih =>
    cases as with
    | nil =>
      rcases List.mem_singleton.mp h with rfl
      simpa using subHead x []
    | cons b bs =>
      rcases List.mem_cons.mp h with rfl | h2
      · exact subHead _ _
      · exact subIn _ _ _ (subIn _ _ _ (ih h2))

/-! ## C1: router classification -/

/-- C1, counterexample to the claim as stated: the message
`"phone repair status"` contains a repair keyword and a status keyword yet
routes to `product_info`, because the product keyword `"phone"` is tested
first.  The claim's unconditional "repair keyword and status keyword
routes to repair_info" therefore fails. -/
theorem c1_priority_cex :
    router (S "phone repair status") = S "product_info" ∧
    kwAny (lowerS (S "phone repair status")) REPAIR_KWS = true ∧
    kwAny (lowerS (S "phone repair status")) STATUS_KWS = true ∧
    S "product_info" ≠ S "repair_info" := by decide

/-- C1 (amended): the router is a pure total function of the message
text: it agrees with the spec's ordered-rule evaluation (first matching
keyword set wins, `general_chat` when none match), always returns one of
the nine category labels, and a message containing a repair keyword and a
status keyword but no product keyword routes to `repair_info`. -/
theorem c1_router_classification (m : Str) :
    router m = routeByRules m ∧ router m ∈ CATEGORY_LABELS ∧
    (kwAny (lowerS m) REPAIR_KWS = true → kwAny (lowerS m) STATUS_KWS = true →
     kwAny (lowerS m) PRODUCT_KWS = false → router m = S "repair_info") := by
  refine ⟨?_, ?_, ?_⟩
  · unfold router routeByRules ROUTER_RULES
    dsimp only
    simp only [List.find?]
    split_ifs with h1 h2 h3 h4 h5 h6 h7 h8 <;> simp_all
  · unfold router
    dsimp only
    split_ifs <;> simp [CATEGORY_LABELS]
  · intro hr hs hp
    simp [router, hp, hr]

/-- C1, witness: the classification theorem applied to the concrete
message `"repair status"`. -/
theorem c1_router_classification_witness :
    router (S "repair status") = routeByRules (S "repair status") ∧
    router (S "repair status") ∈ CATEGORY_LABELS ∧
    router (S "repair status") = S "repair_info" := by
  have h := c1_router_classification (S "repair status")
  exact ⟨h.1, h.2.1, h.2.2 (by decide) (by decide) (by decide)⟩

/-! ## C2: repair quotes -/

/-- C2 (amended): when the lower-cased issue text contains one of the
FOUR issue keywords of `get_repair_info`'s price table, the returned text
contains the table price for the first matching keyword and the resolved
brand bucket, and the stated turnaround is `"1-2 days"` iff the urgency
argument is `"urgent"`. -/
theorem c2_repair_info_priced (pt issue urg : Str)
    (h : (repair_prices.map Prod.fst).any (fun k => containsSub (lowerS issue) k) = true) :
    ∃ k, priceKeyFor issue = some k ∧
      containsSub (get_repair_info pt issue urg) (priceLookup k (repairBrand pt)) = true ∧
      (repairTurnaround urg = S "1-2 days" ↔ urg = S "urgent") := by
  rcases find?_of_any _ h with ⟨k, hk, -⟩
  have hk2 : priceKeyFor issue = some k := hk
  refine ⟨k, hk2, ?_, ?_⟩
  · simp only [get_repair_info, hk2]
    exact subIn _ _ _ (subIn _ _ _ (subIn _ _ _ (subIn _ _ _ (subHead _ _))))
  · rcases eq_or_ne urg (S "urgent") with he | he
    · simp [repairTurnaround, he]
    · simp only [repairTurnaround, beq_iff_eq, if_neg he]
      constructor
      · intro hbad
        exact absurd hbad (by decide)
      · intro hbad
        exact absurd hbad he

/-- C2, witness: the repair-quote theorem applied to an urgent broken
screen on an iPhone 15. -/
theorem c2_repair_info_priced_witness :
    ∃ k, priceKeyFor (S "broken screen") = some k ∧
      containsSub (get_repair_info (S "iPhone 15") (S "broken screen") (S "urgent"))
        (priceLookup k (repairBrand (S "iPhone 15"))) = true ∧
      (repairTurnaround (S "urgent") = S "1-2 days" ↔ S "urgent" = S "urgent") :=
  c2_repair_info_priced (S "iPhone 15") (S "broken screen") (S "urgent") (by decide)

/-- C2, counterexample to "five known issue keywords": the repository's
five-issue price sheet (in `support_tools.py`) includes `charging_port`,
but `get_repair_info`'s own table has only four keywords, so the issue
text `"charging_port"` gets the generic visit-store fallback and no price
at all (in particular not the `$79.99` charging-port price). -/
theorem c2_five_keywords_cex :
    (tools_repair_prices.map Prod.fst).length = 5 ∧
    (alookup (S "charging_port") tools_repair_prices).isSome = true ∧
    containsSub (lowerS (S "charging_port")) (S "charging_port") = true ∧
    get_repair_info (S "iPhone 15") (S "charging_port") (S "standard") =
      S "We can repair iPhone 15 with charging_port. Please visit our store for exact pricing." ∧
    containsSub (get_repair_info (S "iPhone 15") (S "charging_port") (S "standard")) (S "$") = false := by
  decide

/-! ## C3: appointment ids -/

/-- Every id produced by a run of bookings is at least the starting
counter value. -/
theorem runBookings_ge (rs : List BookReq) (st : ApptState) (i : Nat)
    (h : i ∈ runBookings st rs) : st.next_id ≤ i := by
  induction rs generalizing st with
  | nil => simp [runBookings] at h
  | cons r rs ih =>
    simp only [runBookings, AppointmentSystem.book_appointment, List.mem_cons] at h
    rcases h with rfl | h
    · exact Nat.le_refl _
    · have h2 := ih _ h
      simp only at h2
      omega

/-- C3 (amended): appointment ids assigned by
`AppointmentSystem.book_appointment` are strictly increasing in call
order, hence pairwise distinct, for every sequence of booking calls
against one system instance. -/
theorem c3_counter_ids (st : ApptState) (rs : List BookReq) :
    List.Pairwise (fun a b => a < b) (runBookings st rs) ∧ (runBookings st rs).Nodup := by
  have main : ∀ rs st, List.Pairwise (fun a b : Nat => a < b) (runBookings st rs) := by
    intro rs
    induction rs with
    | nil => intro st; simp [runBookings]
    | cons r rs ih =>
      intro st
      simp only [runBookings, AppointmentSystem.book_appointment]
      refine List.Pairwise.cons ?_ (ih _)
      intro j hj
      have h2 := runBookings_ge _ _ _ hj
      simp only at h2
      omega
  refine ⟨main rs st, ?_⟩
  exact List.Pairwise.imp (fun hab => Nat.ne_of_lt hab) (main rs st)

set_option maxRecDepth 4096 in
/-- C3, counterexample to the claim as stated over all booking
operations: the direct `book_appointment` of `phone_support_bot.py`
derives its id from `strftime('%Y%m%d%H%M%S')`, which has one-second
resolution, so two successful calls at distinct instants within the same
clock second return identical ids instead of strictly increasing ones. -/
theorem c3_timestamp_id_cex :
    aptIdStr ⟨2025, 3, 1, 9, 0, 0, 0⟩ = aptIdStr ⟨2025, 3, 1, 9, 0, 0, 500000⟩ ∧
    (⟨2025, 3, 1, 9, 0, 0, 0⟩ : NowTime) ≠ ⟨2025, 3, 1, 9, 0, 0, 500000⟩ ∧
    book_appointment ⟨2025, 3, 1, 9, 0, 0, 0⟩ (S "Amy") (S "iPhone 15") (S "screen") (S "2025-03-01") (S "9:00 AM") (S "amy@x.com") =
      book_appointment ⟨2025, 3, 1, 9, 0, 0, 500000⟩ (S "Amy") (S "iPhone 15") (S "screen") (S "2025-03-01") (S "9:00 AM") (S "amy@x.com") ∧
    containsSub (book_appointment ⟨2025, 3, 1, 9, 0, 0, 0⟩ (S "Amy") (S "iPhone 15") (S "screen") (S "2025-03-01") (S "9:00 AM") (S "amy@x.com")) (S "Appointment ID: APT-20250301090000") = true := by
  decide

/-! ## C4, C5, C6: booking validation -/

/-- C4 (amended): whenever the preferred date fails the code's
`strptime("%Y-%m-%d")` parse — a parse that also accepts unpadded
single-digit months and days — `book_appointment` returns the fixed
invalid-date message and no booking confirmation. -/
theorem c4_invalid_date (now : NowTime) (nm pt iss d tm c : Str)
    (h : parseYmd d = none) :
    book_appointment now nm pt iss d tm c = invalidDateMsg ∧
    containsSub (book_appointment now nm pt iss d tm c) (S "Appointment Booked") = false := by
  have heq : book_appointment now nm pt iss d tm c = invalidDateMsg := by
    simp only [book_appointment, h]
  refine ⟨heq, ?_⟩
  rw [heq]
  decide

/-- C4, witness: the non-existent calendar date `2025-02-30` is rejected
with the invalid-date message. -/
theorem c4_invalid_date_witness :
    book_appointment ⟨2025, 3, 1, 9, 0, 0, 0⟩ (S "Bob") (S "iPhone 15") (S "screen")
      (S "2025-02-30") (S "9:00 AM") (S "bob@x.com") = invalidDateMsg ∧
    containsSub (book_appointment ⟨2025, 3, 1, 9, 0, 0, 0⟩ (S "Bob") (S "iPhone 15") (S "screen")
      (S "2025-02-30") (S "9:00 AM") (S "bob@x.com")) (S "Appointment Booked") = false :=
  c4_invalid_date ⟨2025, 3, 1, 9, 0, 0, 0⟩ (S "Bob") (S "iPhone 15") (S "screen")
    (S "2025-02-30") (S "9:00 AM") (S "bob@x.com") (by decide)

set_option maxRecDepth 4096 in
/-- C4, counterexample to the claim as stated: `"2025-3-1"` is not in the
exact `YYYY-MM-DD` format, yet `book_appointment` accepts it and returns a
success confirmation rather than the invalid-date message, because
CPython's `%m`/`%d` directives also match unpadded single digits. -/
theorem c4_unpadded_date_cex :
    exactYMD (S "2025-3-1") = false ∧
    book_appointment ⟨2025, 3, 1, 9, 0, 0, 0⟩ (S "Bob") (S "iPhone 15") (S "screen")
      (S "2025-3-1") (S "9:00 AM") (S "bob@x.com") ≠ invalidDateMsg ∧
    containsSub (book_appointment ⟨2025, 3, 1, 9, 0, 0, 0⟩ (S "Bob") (S "iPhone 15") (S "screen")
      (S "2025-3-1") (S "9:00 AM") (S "bob@x.com")) (S "Appointment Booked Successfully") = true := by
  decide

/-- C5: with a date that parses and a preferred time outside the four
fixed slots, `book_appointment` returns exactly the message listing the
four valid times and no (partial) booking confirmation. -/
theorem c5_bad_time (now : NowTime) (nm pt iss d tm c : Str) (v : Nat × Nat × Nat)
    (hd : parseYmd d = some v) (ht : AVAILABLE_TIMES.contains tm = false) :
    book_appointment now nm pt iss d tm c = availableTimesMsg ∧
    containsSub (book_appointment now nm pt iss d tm c) (S "Appointment Booked") = false := by
  have heq : book_appointment now nm pt iss d tm c = availableTimesMsg := by
    simp only [book_appointment, hd, ht]
    simp
  refine ⟨heq, ?_⟩
  rw [heq]
  decide

/-- C5, witness: booking `2025-03-01` at `3:00 PM` is refused with the
four-slot list. -/
theorem c5_bad_time_witness :
    book_appointment ⟨2025, 3, 1, 9, 0, 0, 0⟩ (S "Bob") (S "iPhone 15") (S "screen")
      (S "2025-03-01") (S "3:00 PM") (S "bob@x.com") = availableTimesMsg ∧
    containsSub (book_appointment ⟨2025, 3, 1, 9, 0, 0, 0⟩ (S "Bob") (S "iPhone 15") (S "screen")
      (S "2025-03-01") (S "3:00 PM") (S "bob@x.com")) (S "Appointment Booked") = false :=
  c5_bad_time ⟨2025, 3, 1, 9, 0, 0, 0⟩ (S "Bob") (S "iPhone 15") (S "screen")
    (S "2025-03-01") (S "3:00 PM") (S "bob@x.com") (2025, 3, 1) (by decide) (by decide)

/-- C6: with a parsing date and an allowed time slot, `book_appointment`
returns the confirmation text, which contains the newly generated
appointment id and every supplied field unmodified. -/
theorem c6_booking_confirms (now : NowTime) (nm pt iss d tm c : Str) (v : Nat × Nat × Nat)
    (hd : parseYmd d = some v) (ht : AVAILABLE_TIMES.contains tm = true) :
    book_appointment now nm pt iss d tm c = bookingConfirmation now nm pt iss d tm c ∧
    containsSub (book_appointment now nm pt iss d tm c) (aptIdStr now) = true ∧
    containsSub (book_appointment now nm pt iss d tm c) nm = true ∧
    containsSub (book_appointment now nm pt iss d tm c) pt = true ∧
    containsSub (book_appointment now nm pt iss d tm c) iss = true ∧
    containsSub (book_appointment now nm pt iss d tm c) d = true ∧
    containsSub (book_appointment now nm pt iss d tm c) tm = true ∧
    containsSub (book_appointment now nm pt iss d tm c) c = true := by
  have heq : book_appointment now nm pt iss d tm c = bookingConfirmation now nm pt iss d tm c := by
    simp only [book_appointment, hd, ht]
    simp
  rw [heq]
  unfold bookingConfirmation
  refine ⟨rfl, ?_, ?_, ?_, ?_, ?_, ?_, ?_⟩
  · exact subIn _ _ _ (subHead _ _)
  · exact subIn _ _ _ (subIn _ _ _ (subIn _ _ _ (subHead _ _)))
  · exact subIn _ _ _ (subIn _ _ _ (subIn _ _ _ (subIn _ _ _ (subIn _ _ _ (subHead _ _)))))
  · exact subIn _ _ _ (subIn _ _ _ (subIn _ _ _ (subIn _ _ _ (subIn _ _ _ (subIn _ _ _ (subIn _ _ _ (subHead _ _)))))))
  · exact subIn _ _ _ (subIn _ _ _ (subIn _ _ _ (subIn _ _ _ (subIn _ _ _ (subIn _ _ _ (subIn _ _ _ (subIn _ _ _ (subIn _ _ _ (subHead _ _)))))))))
  · exact subIn _ _ _ (subIn _ _ _ (subIn _ _ _ (subIn _ _ _ (subIn _ _ _ (subIn _ _ _ (subIn _ _ _ (subIn _ _ _ (subIn _ _ _ (subIn _ _ _ (subIn _ _ _ (subHead _ _)))))))))))
  · exact subIn _ _ _ (subIn _ _ _ (subIn _ _ _ (subIn _ _ _ (subIn _ _ _ (subIn _ _ _ (subIn _ _ _ (subIn _ _ _ (subIn _ _ _ (subIn _ _ _ (subIn _ _ _ (subIn _ _ _ (subIn _ _ _ (subHead _ _)))))))))))))

/-- C6, witness: a fully valid booking at `2025-03-01 9:00 AM` yields a
confirmation containing the generated id and the customer name. -/
theorem c6_booking_confirms_witness :
    containsSub (book_appointment ⟨2025, 3, 1, 9, 0, 0, 0⟩ (S "Bob") (S "iPhone 15") (S "screen")
      (S "2025-03-01") (S "9:00 AM") (S "bob@x.com")) (aptIdStr ⟨2025, 3, 1, 9, 0, 0, 0⟩) = true ∧
    containsSub (book_appointment ⟨2025, 3, 1, 9, 0, 0, 0⟩ (S "Bob") (S "iPhone 15") (S "screen")
      (S "2025-03-01") (S "9:00 AM") (S "bob@x.com")) (S "Bob") = true := by
  have h := c6_booking_confirms ⟨2025, 3, 1, 9, 0, 0, 0⟩ (S "Bob") (S "iPhone 15") (S "screen")
    (S "2025-03-01") (S "9:00 AM") (S "bob@x.com") (2025, 3, 1) (by decide) (by decide)
  exact ⟨h.2.1, h.2.2.1⟩

/-! ## C7: unknown ticket ids -/

/-- C7: for every missing ticket id and every id not present in the
ticket store, `check_repair_status` returns the fixed
provide-a-valid-ticket-number prompt; being a total function of its
argument, it raises nothing. -/
theorem c7_unknown_ticket (tn : Option Str)
    (h : ∀ t, tn = some t → alookup t REPAIR_JOBS = none) :
    check_repair_status tn = ticketNotFoundMsg := by
  cases tn with
  | none => rfl
  | some t =>
    by_cases ht : (t != []) = true
    · simp only [check_repair_status, ht, if_true, h t rfl]
    · simp only [check_repair_status, ht, if_false]
      simp [ht]

/-- C7, witness: the unknown id `TICKET-999` gets the fixed prompt. -/
theorem c7_unknown_ticket_witness :
    check_repair_status (some (S "TICKET-999")) = ticketNotFoundMsg :=
  c7_unknown_ticket (some (S "TICKET-999")) (by intro t ht; cases ht; decide)

/-! ## C8: catalogue spec sheets -/

/-- C8: whenever the model argument exactly matches a catalogue key, the
output of `get_phone_info` contains that model's price, its joined
storage options (and each option), its joined colors (and each color),
and all three spec fields verbatim. -/
theorem c8_phone_sheet (b f : Option Str) (m : Str) (p : PhoneEntry)
    (h : alookup m PHONE_INVENTORY = some p) :
    containsSub (get_phone_info b (some m) f) p.price = true ∧
    containsSub (get_phone_info b (some m) f) (joinComma p.storage) = true ∧
    (∀ s ∈ p.storage, containsSub (get_phone_info b (some m) f) s = true) ∧
    containsSub (get_phone_info b (some m) f) (joinComma p.colors) = true ∧
    (∀ s ∈ p.colors, containsSub (get_phone_info b (some m) f) s = true) ∧
    containsSub (get_phone_info b (some m) f) p.specs.display = true ∧
    containsSub (get_phone_info b (some m) f) p.specs.camera = true ∧
    containsSub (get_phone_info b (some m) f) p.specs.battery = true := by
  have hm0 : m ≠ [] := by
    intro e
    rw [e, show alookup ([] : Str) PHONE_INVENTORY = none from by decide] at h
    cases h
  have hm : (m != []) = true := by simpa using hm0
  have heq : get_phone_info b (some m) f = phoneSheet m p := by
    simp only [get_phone_info, hm, if_true, h]
  rw [heq]
  unfold phoneSheet
  refine ⟨?_, ?_, ?_, ?_, ?_, ?_, ?_, ?_⟩
  · exact subIn _ _ _ (subIn _ _ _ (subIn _ _ _ (subHead _ _)))
  · exact subIn _ _ _ (subIn _ _ _ (subIn _ _ _ (subIn _ _ _ (subIn _ _ _ (subHead _ _)))))
  · intro s hs
    refine subTrans _ _ _ ?_ (mem_joinComma _ _ hs)
    exact subIn _ _ _ (subIn _ _ _ (subIn _ _ _ (subIn _ _ _ (subIn _ _ _ (subHead _ _)))))
  · exact subIn _ _ _ (subIn _ _ _ (subIn _ _ _ (subIn _ _ _ (subIn _ _ _ (subIn _ _ _ (subIn _ _ _ (subHead _ _)))))))
  · intro s hs
    refine subTrans _ _ _ ?_ (mem_joinComma _ _ hs)
    exact subIn _ _ _ (subIn _ _ _ (subIn _ _ _ (subIn _ _ _ (subIn _ _ _ (subIn _ _ _ (subIn _ _ _ (subHead _ _)))))))
  · exact subIn _ _ _ (subIn _ _ _ (subIn _ _ _ (subIn _ _ _ (subIn _ _ _ (subIn _ _ _ (subIn _ _ _ (subIn _ _ _ (subIn _ _ _ (subHead _ _)))))))))
  · exact subIn _ _ _ (subIn _ _ _ (subIn _ _ _ (subIn _ _ _ (subIn _ _ _ (subIn _ _ _ (subIn _ _ _ (subIn _ _ _ (subIn _ _ _ (subIn _ _ _ (subIn _ _ _ (subHead _ _)))))))))))
  · exact subIn _ _ _ (subIn _ _ _ (subIn _ _ _ (subIn _ _ _ (subIn _ _ _ (subIn _ _ _ (subIn _ _ _ (subIn _ _ _ (subIn _ _ _ (subIn _ _ _ (subIn _ _ _ (subIn _ _ _ (subIn _ _ _ (subHead _ _)))))))))))))

/-- C8, witness: looking up `iPhone 15` yields a sheet containing its
price `$799`. -/
theorem c8_phone_sheet_witness :
    containsSub (get_phone_info none (some (S "iPhone 15")) none) (S "$799") = true := by
  have h := c8_phone_sheet none none (S "iPhone 15")
    ⟨S "$799", [S "128GB", S "256GB", S "512GB"],
     [S "Black", S "Blue", S "Green", S "Yellow", S "Pink"],
     ⟨S "6.1-inch Super Retina XDR", S "48MP Main + 12MP Ultra Wide",
      S "Up to 20 hours video playback"⟩⟩ (by decide)
  exact h.1

/-! ## C9: the Other fallback -/

/-- C9: every row of both repair-price tables carries an `"Other"` brand
key, and for every phone type the brand bucket resolved by
`get_repair_info` hits an existing key, so the brand lookups of the repair
handlers are total and never fail with a missing key. -/
theorem c9_other_key_total (pt : Str) :
    (∀ k e, alookup k repair_prices = some e →
      (alookup (S "Other") e).isSome = true ∧ (alookup (repairBrand pt) e).isSome = true) ∧
    (∀ k e, alookup k tools_repair_prices = some e →
      (alookup (S "Other") e).isSome = true) := by
  have hb : repairBrand pt = S "iPhone" ∨ repairBrand pt = S "Samsung" ∨
      repairBrand pt = S "Other" := by
    unfold repairBrand
    split_ifs <;> simp
  constructor
  · intro k e hk
    simp only [repair_prices, alookup] at hk
    split_ifs at hk <;> cases hk <;>
      exact ⟨by decide, by rcases hb with h | h | h <;> rw [h] <;> decide⟩
  · intro k e hk
    simp only [tools_repair_prices, alookup] at hk
    split_ifs at hk <;> cases hk <;> decide

/-- C9, witness: the screen row of `get_repair_info`'s table has an
`Other` price, and the brand bucket of a Pixel phone hits a key. -/
theorem c9_other_key_total_witness :
    (alookup (S "Other") [(S "iPhone", S "$199"), (S "Samsung", S "$179"), (S "Other", S "$159")]).isSome = true ∧
    (alookup (repairBrand (S "Google Pixel 8")) [(S "iPhone", S "$199"), (S "Samsung", S "$179"), (S "Other", S "$159")]).isSome = true :=
  (c9_other_key_total (S "Google Pixel 8")).1 (S "screen")
    [(S "iPhone", S "$199"), (S "Samsung", S "$179"), (S "Other", S "$159")] (by decide)

/-! ## C10: the Iphone capitalisation slip -/

/-- No row of the `RepairServices` price table has an `"Iphone"` key, and
its `"iPhone"` and `"Other"` prices differ. -/
theorem tools_row_no_Iphone (k : Str) (pi : List (Str × PVal))
    (hk : alookup k tools_repair_prices = some pi) :
    alookup (S "Iphone") pi = none ∧
    alookup (S "iPhone") pi ≠ alookup (S "Other") pi := by
  simp only [tools_repair_prices, alookup] at hk
  split_ifs at hk <;> cases hk <;> exact ⟨by decide, by decide⟩

/-- C10: for every phone brand whose `capitalize()` form is `"Iphone"`
and every issue key of the table, `estimate_repair_cost` keeps the brand
`"Iphone"` — which is not a key of the per-issue mapping — so the
`dict.get` default applies and the quoted cost is the `"Other"` bucket
price, distinct from the `"iPhone"`-specific price. -/
theorem c10_iphone_other_bucket (pb : Str) (h : capitalizeS pb = S "Iphone")
    (k : Str) (pi : List (Str × PVal))
    (hk : alookup k tools_repair_prices = some pi) :
    estimate_repair_cost pb k =
      .ok ⟨titleS (replUnderscore k), S "Iphone",
        (alookup (S "Other") pi).getD (.price 0), alookup (S "time") pi⟩ ∧
    alookup (S "Iphone") pi = none ∧
    alookup (S "iPhone") pi ≠ alookup (S "Other") pi := by
  rcases tools_row_no_Iphone k pi hk with ⟨h1, h2⟩
  refine ⟨?_, h1, h2⟩
  simp only [estimate_repair_cost, hk, h]
  have hc : (S "Iphone" == S "Iphone" || S "Iphone" == S "Samsung" || S "Iphone" == S "Google") = true := by decide
  simp [hc, h1]

/-- C10, witness: `estimate_repair_cost("iphone", "screen_replacement")`
quotes the `Other` price `$139.99` (13999 cents), not the iPhone price
`$129.99`. -/
theorem c10_iphone_other_bucket_witness :
    estimate_repair_cost (S "iphone") (S "screen_replacement") =
      EstimateOut.ok ⟨S "Screen Replacement", S "Iphone", .price 13999,
        some (.note (S "1-2 hours"))⟩ := by
  have h := c10_iphone_other_bucket (S "iphone") (by decide) (S "screen_replacement")
    [(S "iPhone", PVal.price 12999), (S "Samsung", PVal.price 11999),
     (S "Google", PVal.price 10999), (S "Other", PVal.price 13999),
     (S "time", PVal.note (S "1-2 hours"))] (by decide)
  rw [h.1]
  decide
